import Mathlib

/-!
Verification development for the GitHub MCP gateway server (`src/server.js`).

The server is an Express HTTP gateway over the GitHub repository API.  The
parts embedded here are the parts the claims of the specification concern:

* the Joi request-validation schemas (`createRepoSchema`, `webhookSchema`)
  together with the Joi default validation options (`convert: true`,
  `allowUnknown: false`, empty strings disallowed for `Joi.string()`,
  declared defaults applied to absent keys, `"true"`/`"false"` strings
  coerced to booleans);
* the response mappers used by the list and create routes (straight field
  projections);
* the upstream-error translation performed in the `catch` branches of the
  two `/api/github/repos` handlers;
* the webhook route; and
* the startup token-check (`validateGitHubToken`) as an event trace.

JSON values are modelled by the inductive `Json`.  A JavaScript object whose
properties may be `undefined` (as produced by projecting absent fields) is
modelled by `List (String × Option Json)`, with `none` playing the role of
`undefined`; `jsObjToJson` performs the serialization step of `res.json`,
which drops `undefined`-valued properties.
-/

/-- JSON values (numbers restricted to integers, which covers every field the
server touches). -/
inductive Json where
  | null : Json
  | bool (b : Bool) : Json
  | num (n : Int) : Json
  | str (s : String) : Json
  | arr (elems : List Json) : Json
  | obj (fields : List (String × Json)) : Json

/-- First-match lookup of a key in the field list of an object (JavaScript property
access on a parsed JSON object). -/
def lookupKey : List (String × Json) → String → Option Json
  | [], _ => none
  | (k', v) :: rest, k => if k' = k then some v else lookupKey rest k

/-- JavaScript property access `j.k` on a receiver that does not throw: `none`
models `undefined` (absent key, or a non-object receiver such as a boxed
primitive or an array).  Property access on a JSON `null` receiver throws a
TypeError in JavaScript; that throw path is modelled explicitly in the route
handlers (see `Json.isNull`, `mapSummaries`, `createRepoRoute`), and every
theorem that applies `getField` does so either on the non-null receivers those
guards leave or under a hypothesis forcing an object receiver. -/
def Json.getField : Json → String → Option Json
  | .obj fs, k => lookupKey fs k
  | _, _ => none

/-- Whether a JSON value is `null` — the one receiver on which JavaScript
property access throws a TypeError instead of yielding `undefined`. -/
def Json.isNull : Json → Bool
  | .null => true
  | _ => false

/-- Serialization of a JavaScript object with possibly-`undefined` property
values, as done by `res.json`: `undefined` properties are dropped. -/
def jsObjToJson (o : List (String × Option Json)) : Json :=
  .obj (o.filterMap fun p => match p.2 with
    | some v => some (p.1, v)
    | none => none)

/-! ### Joi schema validation

`createRepoSchema` (server.js lines 82–87) and `webhookSchema` (lines 71–79),
validated with the Joi default options. -/

/-- ASCII lowercasing of a string, character by character (the comparison Joi
performs for its case-insensitive boolean coercion). -/
def strLower (s : String) : String := ⟨s.data.map Char.toLower⟩

/-- Model of the Joi boolean coercion under the default `convert: true` option: booleans
pass through, the strings `"true"`/`"false"` (case-insensitively) are
converted, anything else stays non-boolean (`none` = type failure). -/
def coerceBool : Json → Option Bool
  | .bool b => some b
  | .str s =>
      if strLower s = "true" then some true
      else if strLower s = "false" then some false
      else none
  | _ => none

/-- Model of `Joi.boolean().default(dflt)` on key `key` of an object: absent
keys take the declared default, present values must coerce to a boolean. -/
def parseBoolField (key : String) (dflt : Bool) (fs : List (String × Json)) :
    Except String Bool :=
  match lookupKey fs key with
  | none => .ok dflt
  | some v =>
    match coerceBool v with
    | some b => .ok b
    | none => .error ("\"" ++ key ++ "\" must be a boolean")

/-- Model of `Joi.string().required()` on key `key`: the key must be present,
be a string, and (Joi default) be non-empty. -/
def parseRequiredString (key : String) (fs : List (String × Json)) :
    Except String String :=
  match lookupKey fs key with
  | none => .error ("\"" ++ key ++ "\" is required")
  | some (.str s) =>
      if s = "" then .error ("\"" ++ key ++ "\" is not allowed to be empty")
      else .ok s
  | some _ => .error ("\"" ++ key ++ "\" must be a string")

/-- Model of `name: Joi.string().required().min(1).max(100)`. -/
def parseName (fs : List (String × Json)) : Except String String :=
  match lookupKey fs "name" with
  | none => .error "\"name\" is required"
  | some (.str s) =>
      if s = "" then .error "\"name\" is not allowed to be empty"
      else if s.length > 100 then
        .error "\"name\" length must be less than or equal to 100 characters long"
      else .ok s
  | some _ => .error "\"name\" must be a string"

/-- Model of `description: Joi.string().max(1000)` — optional, but when present
the value must be a non-empty string of length at most 1000. -/
def parseDescription (fs : List (String × Json)) : Except String (Option String) :=
  match lookupKey fs "description" with
  | none => .ok none
  | some (.str s) =>
      if s = "" then .error "\"description\" is not allowed to be empty"
      else if s.length > 1000 then
        .error "\"description\" length must be less than or equal to 1000 characters long"
      else .ok (some s)
  | some _ => .error "\"description\" must be a string"

/-- Model of the Joi default `allowUnknown: false` behaviour: every key of the
object must be one of the declared schema keys. -/
def checkUnknownKeys (allowed : List String) : List (String × Json) → Except String Unit
  | [] => .ok ()
  | (k, _) :: rest =>
      if k ∈ allowed then checkUnknownKeys allowed rest
      else .error ("\"" ++ k ++ "\" is not allowed")

/-- The keys declared by `createRepoSchema`. -/
def createRepoKeys : List String := ["name", "description", "private", "auto_init"]

/-- The normalized value produced by a successful `createRepoSchema`
validation: the validated fields with the declared defaults applied
(`description` stays absent when it was absent). -/
def buildCreateValue (name : String) (descr : Option String) (priv ai : Bool) : Json :=
  .obj ([("name", .str name)] ++
    (match descr with
     | none => []
     | some d => [("description", .str d)]) ++
    [("private", .bool priv), ("auto_init", .bool ai)])

/-- Model of `createRepoSchema.validate(body)`: returns the message of the
first violation, or the normalized value with defaults applied. -/
def validateCreateRepo (j : Json) : Except String Json :=
  match j with
  | .obj fs =>
    match parseName fs with
    | .error e => .error e
    | .ok name =>
      match parseDescription fs with
      | .error e => .error e
      | .ok descr =>
        match parseBoolField "private" false fs with
        | .error e => .error e
        | .ok priv =>
          match parseBoolField "auto_init" true fs with
          | .error e => .error e
          | .ok ai =>
            match checkUnknownKeys createRepoKeys fs with
            | .error e => .error e
            | .ok _ => .ok (buildCreateValue name descr priv ai)
  | _ => .error "\"value\" must be of type object"

/-- Model of the nested owner schema: a required object with one required
string key `login`. -/
def validateOwner (j : Json) : Except String Unit :=
  match j with
  | .obj fs =>
    match parseRequiredString "login" fs with
    | .error e => .error e
    | .ok _ =>
      match checkUnknownKeys ["login"] fs with
      | .error e => .error e
      | .ok _ => .ok ()
  | _ => .error "\"owner\" must be of type object"

/-- The nested `repository` object schema of `webhookSchema`. -/
def validateRepository (j : Json) : Except String Unit :=
  match j with
  | .obj fs =>
    match parseRequiredString "name" fs with
    | .error e => .error e
    | .ok _ =>
      match lookupKey fs "owner" with
      | none => .error "\"owner\" is required"
      | some ow =>
        match validateOwner ow with
        | .error e => .error e
        | .ok _ =>
          match checkUnknownKeys ["name", "owner"] fs with
          | .error e => .error e
          | .ok _ => .ok ()
  | _ => .error "\"repository\" must be of type object"

/-- Model of `webhookSchema.validate(body)`; the webhook handler only inspects
the `error` component, so the validated value is not materialized. -/
def validateWebhook (j : Json) : Except String Unit :=
  match j with
  | .obj fs =>
    match lookupKey fs "repository" with
    | none => .error "\"repository\" is required"
    | some r =>
      match validateRepository r with
      | .error e => .error e
      | .ok _ =>
        match parseRequiredString "action" fs with
        | .error e => .error e
        | .ok _ =>
          match checkUnknownKeys ["repository", "action"] fs with
          | .error e => .error e
          | .ok _ => .ok ()
  | _ => .error "\"value\" must be of type object"

/-! ### Response mappers (server.js lines 106–120 and 159–169) -/

/-- Field names of the list-view projection, in source order. -/
def summaryKeys : List String :=
  ["id", "name", "full_name", "description", "private", "html_url",
   "default_branch", "updated_at", "visibility", "language", "stargazers_count"]

/-- Field names of the create-view projection, in source order. -/
def createdKeys : List String :=
  ["id", "name", "full_name", "description", "private", "html_url",
   "default_branch", "created_at", "visibility"]

/-- The object literal built for each listed repository: eleven properties,
each read off the raw upstream value (`undefined`, i.e. `none`, when absent). -/
def toSummary (r : Json) : List (String × Option Json) :=
  [("id", r.getField "id"),
   ("name", r.getField "name"),
   ("full_name", r.getField "full_name"),
   ("description", r.getField "description"),
   ("private", r.getField "private"),
   ("html_url", r.getField "html_url"),
   ("default_branch", r.getField "default_branch"),
   ("updated_at", r.getField "updated_at"),
   ("visibility", r.getField "visibility"),
   ("language", r.getField "language"),
   ("stargazers_count", r.getField "stargazers_count")]

/-- The object literal built for a created repository: nine properties. -/
def toCreated (r : Json) : List (String × Option Json) :=
  [("id", r.getField "id"),
   ("name", r.getField "name"),
   ("full_name", r.getField "full_name"),
   ("description", r.getField "description"),
   ("private", r.getField "private"),
   ("html_url", r.getField "html_url"),
   ("default_branch", r.getField "default_branch"),
   ("created_at", r.getField "created_at"),
   ("visibility", r.getField "visibility")]

/-! ### Upstream results and route handlers -/

/-- Outcome of one outbound axios call: a 2xx response with parsed body, an
HTTP error status with parsed error body (`error.response` present), or a
transport failure (no response received, `error.response` undefined). -/
inductive UpstreamResult where
  | success (data : Json) : UpstreamResult
  | httpError (status : Nat) (data : Json) : UpstreamResult
  | transport : UpstreamResult

/-- A gateway HTTP response: status code and JSON body. -/
structure GatewayResponse where
  status : Nat
  body : Json

/-- An error body `{error: e, message: m}` where the message may be an
`undefined` pass-through of `error.response.data.message` (dropped by
`res.json` when `undefined`). -/
def errorBody (e : String) (m : Option Json) : Json :=
  jsObjToJson [("error", some (.str e)), ("message", m)]

/-- Model of the `response.data.map(repo => ({...}))` step of the list route:
evaluating the object literal on a `null` element throws a TypeError
(`repo.id` on `null`), aborting the map; on any other element the eleven
property accesses yield values or `undefined` and the literal is built. -/
def mapSummaries : List Json → Except Unit (List Json)
  | [] => .ok []
  | r :: rest =>
      if r.isNull then .error ()
      else
        match mapSummaries rest with
        | .error e => .error e
        | .ok tail => .ok (jsObjToJson (toSummary r) :: tail)

/-- Model of GET `/api/github/repos` (server.js lines 106–147), as a function
of the outcome of the upstream call.  A non-array success body makes
`response.data.map` throw, and a `null` element makes the mapper callback
throw (`repo.id` on `null`); either thrown error has no `response` property,
so the final `else` branch of the catch block answers 500 exactly as for a
transport failure. -/
def listReposRoute (u : UpstreamResult) : GatewayResponse :=
  match u with
  | .success (.arr repos) =>
      match mapSummaries repos with
      | .ok body => ⟨200, .arr body⟩
      | .error _ =>
          ⟨500, errorBody "Internal server error" (some (.str "Failed to fetch repositories"))⟩
  | .success _ =>
      ⟨500, errorBody "Internal server error" (some (.str "Failed to fetch repositories"))⟩
  | .httpError status b =>
      if status = 401 then
        ⟨401, errorBody "Authentication failed" (some (.str "Invalid or expired GitHub token"))⟩
      else if status = 403 then
        ⟨403, errorBody "Permission denied" (some (.str "Token does not have required permissions"))⟩
      else
        ⟨status, errorBody "GitHub API error" (b.getField "message")⟩
  | .transport =>
      ⟨500, errorBody "Internal server error" (some (.str "Failed to fetch repositories"))⟩

/-- Model of POST `/api/github/repos` (server.js lines 149–199).  `upstream`
models the outbound `githubClient.post` call against `/user/repos`: it is
applied to the normalized value produced by validation, and only when
validation succeeds.  A `null` success body makes `response.data.id` throw a
TypeError; the thrown error has no `response` property, so the catch block
answers 500 exactly as for a transport failure. -/
def createRepoRoute (body : Json) (upstream : Json → UpstreamResult) : GatewayResponse :=
  match validateCreateRepo body with
  | .error msg => ⟨400, .obj [("error", .str msg)]⟩
  | .ok value =>
    match upstream value with
    | .success data =>
        if data.isNull then
          ⟨500, errorBody "Internal server error" (some (.str "Failed to create repository"))⟩
        else ⟨201, jsObjToJson (toCreated data)⟩
    | .httpError status b =>
        if status = 401 then
          ⟨401, errorBody "Authentication failed" (some (.str "Invalid or expired GitHub token"))⟩
        else if status = 422 then
          ⟨422, errorBody "Validation failed" (b.getField "message")⟩
        else
          ⟨status, errorBody "GitHub API error" (b.getField "message")⟩
    | .transport =>
        ⟨500, errorBody "Internal server error" (some (.str "Failed to create repository"))⟩

/-- The normalized value the create route submits upstream, when validation
lets a request through. -/
def submittedCreateValue (body : Json) : Option Json :=
  match validateCreateRepo body with
  | .ok v => some v
  | .error _ => none

/-- Model of POST `/api/github/webhook` (server.js lines 202–214). -/
def webhookRoute (body : Json) : GatewayResponse :=
  match validateWebhook body with
  | .error msg => ⟨400, .obj [("error", .str msg)]⟩
  | .ok _ => ⟨200, .obj [("message", .str "Webhook received")]⟩

/-! ### Startup sequence (server.js lines 54–68 and 223–226)

`validateGitHubToken` is an `async` function invoked without `await` at module
load.  JavaScript semantics: the function runs synchronously up to its first
`await` (issuing the `GET /user` request), then suspends; module evaluation
continues, reaching `app.listen(PORT, ...)`, which starts the server; only
when the network promise settles does the `catch` continuation run, calling
`process.exit(1)` exactly when `error.response?.status === 401`. -/

/-- Observable startup events, in order of occurrence. -/
inductive StartupEvent where
  | checkRequestSent : StartupEvent
  | listenCalled : StartupEvent
  | checkCompleted : StartupEvent
  | processExit : StartupEvent
deriving DecidableEq, Repr

/-- Model of the test `error.response?.status === 401`: the only token-check
outcome that makes the process exit. -/
def startupExits : UpstreamResult → Bool
  | .httpError status _ => status == 401
  | _ => false

/-- The startup event trace as a function of the token-check outcome. -/
def startupTrace (r : UpstreamResult) : List StartupEvent :=
  [.checkRequestSent, .listenCalled, .checkCompleted] ++
    (if startupExits r then [.processExit] else [])

/-- Whether a trace terminates the process before it starts accepting
traffic: scanning forward, `processExit` is reached before `listenCalled`. -/
def terminatesBeforeTraffic : List StartupEvent → Bool
  | [] => false
  | .listenCalled :: _ => false
  | .processExit :: _ => true
  | _ :: rest => terminatesBeforeTraffic rest

/-! ### Helper lemmas

First: every validation error message the schemas can produce is non-empty. -/

theorem quoted_ne_empty (k rest : String) : ("\"" ++ k ++ rest) ≠ "" := by
  intro h
  have h2 := congrArg String.length h
  simp [String.length_append] at h2
  exact absurd h2.1.1 (by decide)

theorem parseName_error_ne {fs : List (String × Json)} {e : String}
    (h : parseName fs = .error e) : e ≠ "" := by
  unfold parseName at h
  repeat' split at h
  all_goals simp_all
  all_goals (subst h; decide)

theorem parseDescription_error_ne {fs : List (String × Json)} {e : String}
    (h : parseDescription fs = .error e) : e ≠ "" := by
  unfold parseDescription at h
  repeat' split at h
  all_goals simp_all
  all_goals (subst h; decide)

theorem parseBoolField_error_ne {key : String} {dflt : Bool}
    {fs : List (String × Json)} {e : String}
    (h : parseBoolField key dflt fs = .error e) : e ≠ "" := by
  unfold parseBoolField at h
  repeat' split at h
  all_goals simp_all
  all_goals (subst h; exact quoted_ne_empty _ _)

theorem parseRequiredString_error_ne {key : String}
    {fs : List (String × Json)} {e : String}
    (h : parseRequiredString key fs = .error e) : e ≠ "" := by
  unfold parseRequiredString at h
  repeat' split at h
  all_goals simp_all
  all_goals (subst h; exact quoted_ne_empty _ _)

theorem checkUnknownKeys_error_ne {allowed : List String}
    {fs : List (String × Json)} {e : String}
    (h : checkUnknownKeys allowed fs = .error e) : e ≠ "" := by
  induction fs with
  | nil => simp [checkUnknownKeys] at h
  | cons p rest ih =>
      unfold checkUnknownKeys at h
      split at h
      · exact ih h
      · simp at h
        subst h
        exact quoted_ne_empty _ _

theorem validateCreateRepo_error_ne {j : Json} {e : String}
    (h : validateCreateRepo j = .error e) : e ≠ "" := by
  unfold validateCreateRepo at h
  repeat' split at h
  all_goals (try (injection h with h; subst h))
  all_goals
    first
      | exact parseName_error_ne (by assumption)
      | exact parseDescription_error_ne (by assumption)
      | exact parseBoolField_error_ne (by assumption)
      | exact checkUnknownKeys_error_ne (by assumption)
      | decide
      | simp at h

theorem validateOwner_error_ne {j : Json} {e : String}
    (h : validateOwner j = .error e) : e ≠ "" := by
  unfold validateOwner at h
  repeat' split at h
  all_goals (try (injection h with h; subst h))
  all_goals
    first
      | exact parseRequiredString_error_ne (by assumption)
      | exact checkUnknownKeys_error_ne (by assumption)
      | decide
      | simp at h

theorem validateRepository_error_ne {j : Json} {e : String}
    (h : validateRepository j = .error e) : e ≠ "" := by
  unfold validateRepository at h
  repeat' split at h
  all_goals (try (injection h with h; subst h))
  all_goals
    first
      | exact parseRequiredString_error_ne (by assumption)
      | exact validateOwner_error_ne (by assumption)
      | exact checkUnknownKeys_error_ne (by assumption)
      | decide
      | simp at h

theorem validateWebhook_error_ne {j : Json} {e : String}
    (h : validateWebhook j = .error e) : e ≠ "" := by
  unfold validateWebhook at h
  repeat' split at h
  all_goals (try (injection h with h; subst h))
  all_goals
    first
      | exact parseRequiredString_error_ne (by assumption)
      | exact validateRepository_error_ne (by assumption)
      | exact checkUnknownKeys_error_ne (by assumption)
      | decide
      | simp at h

/-! Characterization of successful validations. -/

theorem parseName_ok {fs : List (String × Json)} {s : String}
    (h : parseName fs = .ok s) :
    lookupKey fs "name" = some (.str s) ∧ s ≠ "" ∧ ¬s.length > 100 := by
  unfold parseName at h
  repeat' split at h
  all_goals simp_all

theorem parseDescription_ok {fs : List (String × Json)} {d : Option String}
    (h : parseDescription fs = .ok d) :
    (d = none ∧ lookupKey fs "description" = none) ∨
    (∃ s, d = some s ∧ lookupKey fs "description" = some (.str s) ∧
      s ≠ "" ∧ ¬s.length > 1000) := by
  unfold parseDescription at h
  repeat' split at h
  all_goals simp_all
  all_goals (subst h; exact ⟨_, rfl, rfl, by assumption, by assumption⟩)

theorem parseBoolField_ok {key : String} {dflt : Bool}
    {fs : List (String × Json)} {b : Bool}
    (h : parseBoolField key dflt fs = .ok b) :
    (lookupKey fs key = none ∧ b = dflt) ∨
    (∃ v, lookupKey fs key = some v ∧ coerceBool v = some b) := by
  unfold parseBoolField at h
  repeat' split at h
  all_goals simp_all

theorem validateCreateRepo_ok_shape {j v : Json}
    (h : validateCreateRepo j = .ok v) :
    ∃ fs name descr priv ai,
      j = .obj fs ∧
      parseName fs = .ok name ∧
      parseDescription fs = .ok descr ∧
      parseBoolField "private" false fs = .ok priv ∧
      parseBoolField "auto_init" true fs = .ok ai ∧
      (∃ u, checkUnknownKeys createRepoKeys fs = .ok u) ∧
      v = buildCreateValue name descr priv ai := by
  cases j with
  | obj fs =>
      unfold validateCreateRepo at h
      repeat' split at h
      all_goals (try (simp at h))
      all_goals
        exact ⟨_, _, _, _, _, by first | assumption | rfl, by assumption,
          by assumption, by assumption, by assumption, ⟨_, by assumption⟩, h.symm⟩
  | null => simp [validateCreateRepo] at h
  | bool b => simp [validateCreateRepo] at h
  | num n => simp [validateCreateRepo] at h
  | str s => simp [validateCreateRepo] at h
  | arr xs => simp [validateCreateRepo] at h

theorem validateCreateRepo_build {name : String} {descr : Option String}
    {priv ai : Bool} (hn : name ≠ "") (hn100 : ¬name.length > 100)
    (hd : ∀ s, descr = some s → s ≠ "" ∧ ¬s.length > 1000) :
    validateCreateRepo (buildCreateValue name descr priv ai) =
      .ok (buildCreateValue name descr priv ai) := by
  cases descr with
  | none =>
      simp [validateCreateRepo, buildCreateValue, parseName, parseDescription,
        parseBoolField, coerceBool, checkUnknownKeys, lookupKey, createRepoKeys,
        hn, hn100]
  | some d =>
      obtain ⟨hd1, hd2⟩ := hd d rfl
      simp [validateCreateRepo, buildCreateValue, parseName, parseDescription,
        parseBoolField, coerceBool, checkUnknownKeys, lookupKey, createRepoKeys,
        hn, hn100, hd1, hd2]

theorem validateCreateRepo_idempotent {j v : Json}
    (h : validateCreateRepo j = .ok v) : validateCreateRepo v = .ok v := by
  obtain ⟨fs, name, descr, priv, ai, hj, hname, hdescr, hpriv, hai, hu, hv⟩ :=
    validateCreateRepo_ok_shape h
  obtain ⟨-, hn, hn100⟩ := parseName_ok hname
  have hd : ∀ s, descr = some s → s ≠ "" ∧ ¬s.length > 1000 := by
    intro s hs
    rcases parseDescription_ok hdescr with ⟨h1, -⟩ | ⟨t, ht, -, ht1, ht2⟩
    · rw [h1] at hs; cases hs
    · rw [ht] at hs
      cases hs
      exact ⟨ht1, ht2⟩
  subst hv
  exact validateCreateRepo_build hn hn100 hd

theorem getField_build_name (name : String) (descr : Option String) (priv ai : Bool) :
    (buildCreateValue name descr priv ai).getField "name" = some (.str name) := by
  cases descr <;> rfl

theorem getField_build_private (name : String) (descr : Option String) (priv ai : Bool) :
    (buildCreateValue name descr priv ai).getField "private" = some (.bool priv) := by
  cases descr <;> rfl

theorem getField_build_auto_init (name : String) (descr : Option String) (priv ai : Bool) :
    (buildCreateValue name descr priv ai).getField "auto_init" = some (.bool ai) := by
  cases descr <;> rfl

theorem checkUnknownKeys_ok_mem {allowed : List String}
    {fs : List (String × Json)} {u : Unit}
    (h : checkUnknownKeys allowed fs = .ok u) :
    ∀ p ∈ fs, p.1 ∈ allowed := by
  induction fs with
  | nil => simp
  | cons p rest ih =>
      unfold checkUnknownKeys at h
      split at h
      · intro q hq
        rcases List.mem_cons.mp hq with hq | hq
        · subst hq; assumption
        · exact ih h q hq
      · cases h

theorem validateWebhook_ok_unknown {fs : List (String × Json)} {u : Unit}
    (h : validateWebhook (.obj fs) = .ok u) :
    ∃ w, checkUnknownKeys ["repository", "action"] fs = .ok w := by
  simp only [validateWebhook] at h
  repeat' split at h
  all_goals (try (cases h))
  all_goals exact ⟨_, by assumption⟩

theorem validateWebhook_missing_action {fs : List (String × Json)}
    (h : lookupKey fs "action" = none) :
    ∃ e, validateWebhook (.obj fs) = .error e := by
  have hact : parseRequiredString "action" fs =
      .error ("\"" ++ "action" ++ "\" is required") := by
    unfold parseRequiredString
    rw [h]
  cases hrep : lookupKey fs "repository" with
  | none =>
      refine ⟨"\"repository\" is required", ?_⟩
      simp only [validateWebhook, hrep]
  | some r =>
      cases hvr : validateRepository r with
      | error e => exact ⟨e, by simp only [validateWebhook, hrep, hvr]⟩
      | ok w =>
          refine ⟨"\"" ++ "action" ++ "\" is required", ?_⟩
          simp only [validateWebhook, hrep, hvr, hact]

theorem validateCreateRepo_empty_description {fs : List (String × Json)}
    (h : lookupKey fs "description" = some (.str "")) :
    ∃ e, validateCreateRepo (.obj fs) = .error e ∧ e ≠ "" := by
  have hdesc : parseDescription fs = .error "\"description\" is not allowed to be empty" := by
    unfold parseDescription
    rw [h]
    simp
  cases hn : parseName fs with
  | error e =>
      exact ⟨e, by simp only [validateCreateRepo, hn], parseName_error_ne hn⟩
  | ok s =>
      refine ⟨"\"description\" is not allowed to be empty", ?_, by decide⟩
      simp only [validateCreateRepo, hn, hdesc]

theorem isNull_eq_false {r : Json} (h : r ≠ Json.null) : r.isNull = false := by
  cases r <;> first | rfl | exact absurd rfl h

theorem mapSummaries_ok {repos : List Json} (h : Json.null ∉ repos) :
    mapSummaries repos = .ok (repos.map fun r => jsObjToJson (toSummary r)) := by
  induction repos with
  | nil => rfl
  | cons r rest ih =>
      have hr : r.isNull = false :=
        isNull_eq_false fun hh => h (by rw [← hh]; exact List.mem_cons_self r rest)
      have hrest := ih fun hh => h (List.mem_cons_of_mem r hh)
      simp [mapSummaries, hr, hrest]

/-! ### Claim theorems -/

/-- Claim C1 (confirmed): the error-translation table holds identically on both
repo routes except for the marked rows.  On the list route, every upstream
HTTP 403 yields 403 with the fixed permission-denied body regardless of the
upstream body; on the create route, an upstream HTTP 403 falls into the
generic row: status 403, error code GitHub API error, and the upstream
message passed through verbatim. -/
theorem claim_C1_403_translation :
    (∀ b : Json, listReposRoute (.httpError 403 b) =
      ⟨403, .obj [("error", .str "Permission denied"),
                  ("message", .str "Token does not have required permissions")]⟩) ∧
    (∀ body v ub m : Json, validateCreateRepo body = .ok v →
      ub.getField "message" = some m →
      createRepoRoute body (fun _ => .httpError 403 ub) =
        ⟨403, .obj [("error", .str "GitHub API error"), ("message", m)]⟩) := by
  constructor
  · intro b; rfl
  · intro body v ub m hv hm
    simp [createRepoRoute, hv, hm, errorBody, jsObjToJson]

/-- Claim C4 (confirmed): every upstream HTTP 422 failure on the create route
yields status 422 with error code Validation failed and the upstream message
passed through verbatim. -/
theorem claim_C4_422_create_translation (body v ub m : Json)
    (hv : validateCreateRepo body = .ok v)
    (hm : ub.getField "message" = some m) :
    createRepoRoute body (fun _ => .httpError 422 ub) =
      ⟨422, .obj [("error", .str "Validation failed"), ("message", m)]⟩ := by
  simp [createRepoRoute, hv, hm, errorBody, jsObjToJson]

/-- Claim C5 (confirmed): every upstream transport failure (no response, hence
no status code) yields 500 with error code Internal server error and the fixed
per-route message: Failed to fetch repositories on the list route and Failed
to create repository on the create route. -/
theorem claim_C5_transport_translation :
    listReposRoute .transport =
      ⟨500, .obj [("error", .str "Internal server error"),
                  ("message", .str "Failed to fetch repositories")]⟩ ∧
    ∀ body v : Json, validateCreateRepo body = .ok v →
      createRepoRoute body (fun _ => .transport) =
        ⟨500, .obj [("error", .str "Internal server error"),
                    ("message", .str "Failed to create repository")]⟩ := by
  constructor
  · rfl
  · intro body v hv
    simp [createRepoRoute, hv, errorBody, jsObjToJson]

/-- Counterexample to claim C7: a successful upstream list call whose array
contains a JSON null element does not get a 200 array response — the mapper
callback throws a TypeError (`repo.id` on `null`), the catch block sees no
`response` property, and the route answers 500 Failed to fetch repositories.
The claimed 200-with-N-elements response and the never-throws clause both fail
at this input. -/
theorem claim_C7_counterexample :
    listReposRoute (.success (.arr [Json.null])) =
      ⟨500, .obj [("error", .str "Internal server error"),
                  ("message", .str "Failed to fetch repositories")]⟩ ∧
    (listReposRoute (.success (.arr [Json.null]))).status ≠ 200 :=
  ⟨rfl, by decide⟩

/-- Claim C7 (corrected): for a successful upstream list call returning N raw
repositories none of which is JSON null, the route responds 200 with an array
of length N; each element is the object built by projecting the raw element
onto exactly the eleven summary keys, the values copied through unchanged
(including nulls), and on such elements the projection never throws even when
fields are absent (absent fields become undefined properties, which `res.json`
omits).  A null element instead makes the mapper throw and the route answer
500 (see the counterexample). -/
theorem claim_C7_list_success_projection (repos : List Json)
    (h : Json.null ∉ repos) :
    listReposRoute (.success (.arr repos)) =
      ⟨200, .arr (repos.map fun r => jsObjToJson (toSummary r))⟩ ∧
    (repos.map fun r => jsObjToJson (toSummary r)).length = repos.length ∧
    (∀ r ∈ repos, (toSummary r).map Prod.fst = summaryKeys) ∧
    (∀ r ∈ repos, toSummary r = summaryKeys.map fun k => (k, r.getField k)) := by
  refine ⟨?_, by simp, fun r _ => rfl, fun r _ => rfl⟩
  simp [listReposRoute, mapSummaries_ok h]

/-- Witness for claim C7 (corrected) at a concrete two-element array, one
element missing most fields. -/
theorem claim_C7_witness :
    listReposRoute (.success (.arr [Json.obj [("id", Json.num 1)], Json.obj []])) =
      ⟨200, .arr [Json.obj [("id", Json.num 1)], Json.obj []]⟩ ∧
    ([Json.obj [("id", Json.num 1)], Json.obj []].map
      fun r => jsObjToJson (toSummary r)).length = 2 := by
  have h := claim_C7_list_success_projection
    [Json.obj [("id", Json.num 1)], Json.obj []] (by simp)
  exact ⟨h.1, h.2.1⟩

/-- Counterexample to claim C2: a creation body satisfying every schema
constraint plus one unknown extra field is rejected (error: extra is not
allowed) and the route answers 400, while the same body without the extra
field validates; the webhook schema rejects an unknown extra field the same
way.  Unknown fields are not ignored. -/
theorem claim_C2_counterexample :
    validateCreateRepo (.obj [("name", .str "a")]) =
      .ok (.obj [("name", .str "a"), ("private", .bool false), ("auto_init", .bool true)]) ∧
    validateCreateRepo (.obj [("name", .str "a"), ("extra", .num 1)]) =
      .error "\"extra\" is not allowed" ∧
    (createRepoRoute (.obj [("name", .str "a"), ("extra", .num 1)]) (fun _ => .transport)).status = 400 ∧
    validateWebhook (.obj [("repository", .obj [("name", .str "r"), ("owner", .obj [("login", .str "o")])]), ("action", .str "opened")]) = .ok () ∧
    validateWebhook (.obj [("repository", .obj [("name", .str "r"), ("owner", .obj [("login", .str "o")])]), ("action", .str "opened"), ("extra", .str "x")]) =
      .error "\"extra\" is not allowed" :=
  ⟨rfl, rfl, rfl, rfl, rfl⟩

/-- Claim C2 (corrected): with the Joi default allowUnknown: false, any body
carrying a field whose key is outside the schema fails validation on both
schemas (so the routes answer 400 rather than ignoring the extra field). -/
theorem claim_C2_unknown_fields_rejected :
    (∀ (fs : List (String × Json)) (k : String) (val : Json),
      (k, val) ∈ fs → k ∉ createRepoKeys →
      ∀ v, validateCreateRepo (.obj fs) ≠ .ok v) ∧
    (∀ (fs : List (String × Json)) (k : String) (val : Json),
      (k, val) ∈ fs → k ∉ ["repository", "action"] →
      ∀ u : Unit, validateWebhook (.obj fs) ≠ .ok u) := by
  constructor
  · intro fs k val hmem hk v hok
    obtain ⟨fs2, name, descr, priv, ai, hfs, -, -, -, -, ⟨u, hu⟩, -⟩ :=
      validateCreateRepo_ok_shape hok
    injection hfs with hfs
    subst hfs
    exact hk (checkUnknownKeys_ok_mem hu (k, val) hmem)
  · intro fs k val hmem hk u hok
    obtain ⟨w, hw⟩ := validateWebhook_ok_unknown hok
    exact hk (checkUnknownKeys_ok_mem hw (k, val) hmem)

/-- Witness for claim C2 (corrected) at concrete bodies with unknown keys. -/
theorem claim_C2_witness :
    validateCreateRepo (.obj [("name", .str "a"), ("extra", .num 1)]) ≠
      .ok (.obj [("name", .str "a"), ("private", .bool false), ("auto_init", .bool true)]) ∧
    validateWebhook (.obj [("action", .str "opened"), ("junk", .null)]) ≠ .ok () :=
  ⟨claim_C2_unknown_fields_rejected.1 _ "extra" (.num 1)
      (List.mem_cons_of_mem _ (List.mem_cons_self _ _)) (by decide) _,
   claim_C2_unknown_fields_rejected.2 _ "junk" .null
      (List.mem_cons_of_mem _ (List.mem_cons_self _ _)) (by decide) ()⟩

/-- Counterexample to claim C3: a body supplying private as the string true
passes validation, and the normalized output carries the boolean true rather
than the supplied string value — the value is coerced, not used verbatim. -/
theorem claim_C3_counterexample :
    validateCreateRepo (.obj [("name", .str "a"), ("private", .str "true")]) =
      .ok (.obj [("name", .str "a"), ("private", .bool true), ("auto_init", .bool true)]) ∧
    Json.str "true" ≠ Json.bool true :=
  ⟨rfl, fun h => Json.noConfusion h⟩

/-- Claim C3 (corrected): when a validated creation body omits private or
auto_init, the normalized value carries the defaults false and true; a
supplied boolean value is used verbatim; however, the strings true and false
are coerced to booleans by the Joi convert option rather than rejected or
passed through, and a numeric value fails validation. -/
theorem claim_C3_defaults_and_booleans :
    (∀ (fs : List (String × Json)) (v : Json), validateCreateRepo (.obj fs) = .ok v →
      (lookupKey fs "private" = none → v.getField "private" = some (.bool false)) ∧
      (lookupKey fs "auto_init" = none → v.getField "auto_init" = some (.bool true)) ∧
      (∀ b, lookupKey fs "private" = some (.bool b) → v.getField "private" = some (.bool b)) ∧
      (∀ b, lookupKey fs "auto_init" = some (.bool b) → v.getField "auto_init" = some (.bool b)) ∧
      (∀ s b, lookupKey fs "private" = some (.str s) → coerceBool (.str s) = some b →
        v.getField "private" = some (.bool b))) ∧
    (∀ (fs : List (String × Json)) (n : Int) (w : Json),
      lookupKey fs "private" = some (.num n) → validateCreateRepo (.obj fs) ≠ .ok w) := by
  constructor
  · intro fs v hok
    obtain ⟨fs2, name, descr, priv, ai, hfs, hname, hdescr, hpriv, hai, -, hv⟩ :=
      validateCreateRepo_ok_shape hok
    injection hfs with hfs
    subst hfs
    subst hv
    refine ⟨?_, ?_, ?_, ?_, ?_⟩
    · intro hlk
      rcases parseBoolField_ok hpriv with ⟨-, hb⟩ | ⟨val, hsome, -⟩
      · rw [getField_build_private, hb]
      · rw [hlk] at hsome; cases hsome
    · intro hlk
      rcases parseBoolField_ok hai with ⟨-, hb⟩ | ⟨val, hsome, -⟩
      · rw [getField_build_auto_init, hb]
      · rw [hlk] at hsome; cases hsome
    · intro b hlk
      rcases parseBoolField_ok hpriv with ⟨hnone, -⟩ | ⟨val, hsome, hc⟩
      · rw [hlk] at hnone; cases hnone
      · rw [hlk] at hsome
        injection hsome with hsome
        subst hsome
        simp [coerceBool] at hc
        rw [getField_build_private, hc]
    · intro b hlk
      rcases parseBoolField_ok hai with ⟨hnone, -⟩ | ⟨val, hsome, hc⟩
      · rw [hlk] at hnone; cases hnone
      · rw [hlk] at hsome
        injection hsome with hsome
        subst hsome
        simp [coerceBool] at hc
        rw [getField_build_auto_init, hc]
    · intro s b hlk hc2
      rcases parseBoolField_ok hpriv with ⟨hnone, -⟩ | ⟨val, hsome, hc⟩
      · rw [hlk] at hnone; cases hnone
      · rw [hlk] at hsome
        injection hsome with hsome
        subst hsome
        rw [hc2] at hc
        injection hc with hc
        rw [getField_build_private, hc]
  · intro fs n w hlk hok
    obtain ⟨fs2, name, descr, priv, ai, hfs, -, -, hpriv, -, -, -⟩ :=
      validateCreateRepo_ok_shape hok
    injection hfs with hfs
    subst hfs
    rcases parseBoolField_ok hpriv with ⟨hnone, -⟩ | ⟨val, hsome, hc⟩
    · rw [hlk] at hnone; cases hnone
    · rw [hlk] at hsome
      injection hsome with hsome
      subst hsome
      simp [coerceBool] at hc

/-- Witness for claim C3 (corrected): defaults applied at a concrete body, and
a numeric private value rejected. -/
theorem claim_C3_witness :
    (Json.obj [("name", Json.str "a"), ("private", Json.bool false),
        ("auto_init", Json.bool true)]).getField "private" = some (.bool false) ∧
    validateCreateRepo (.obj [("name", .str "a"), ("private", .num 1)]) ≠ .ok .null :=
  ⟨(claim_C3_defaults_and_booleans.1 [("name", .str "a")]
      (.obj [("name", .str "a"), ("private", .bool false), ("auto_init", .bool true)]) rfl).1 rfl,
   claim_C3_defaults_and_booleans.2 _ 1 _ rfl⟩

/-- Counterexample to claim C6: when the startup token check fails with HTTP
401, the trace is request, listen, completion, exit — the server has already
begun accepting traffic (listenCalled) before the process exits, because
`validateGitHubToken()` is invoked without `await` and `app.listen` runs while
the check is still in flight.  The process therefore does not terminate before
accepting traffic. -/
theorem claim_C6_counterexample :
    startupTrace (.httpError 401 (.obj [])) =
      [.checkRequestSent, .listenCalled, .checkCompleted, .processExit] ∧
    terminatesBeforeTraffic (startupTrace (.httpError 401 (.obj []))) = false :=
  ⟨rfl, rfl⟩

/-- Claim C6 (corrected): the gateway issues one startup credential check, and
a confirmed-invalid credential (HTTP 401) is the only outcome that terminates
the process; every other failure (transport, other statuses) is logged without
exiting.  However, in every trace the server starts listening before the check
completes, so the termination happens after traffic is already being
accepted, not before. -/
theorem claim_C6_startup_check_not_blocking :
    (∀ r : UpstreamResult, StartupEvent.listenCalled ∈ startupTrace r ∧
      terminatesBeforeTraffic (startupTrace r) = false) ∧
    (∀ b : Json, StartupEvent.processExit ∈ startupTrace (.httpError 401 b)) ∧
    (∀ r : UpstreamResult, startupExits r = false →
      StartupEvent.processExit ∉ startupTrace r) ∧
    (∀ (s : Nat) (b : Json), s ≠ 401 → startupExits (.httpError s b) = false) ∧
    startupExits .transport = false ∧
    (∀ d : Json, startupExits (.success d) = false) := by
  refine ⟨fun r => ⟨?_, rfl⟩, fun b => ?_, fun r hr => ?_, fun s b hs => ?_, rfl, fun d => rfl⟩
  · simp [startupTrace]
  · simp [startupTrace, startupExits]
  · simp [startupTrace, hr]
  · simp [startupExits, hs]

/-- Witness for claim C6 (corrected) at concrete non-fatal outcomes. -/
theorem claim_C6_witness :
    StartupEvent.processExit ∉ startupTrace .transport ∧
    startupExits (.httpError 403 (.obj [])) = false :=
  ⟨claim_C6_startup_check_not_blocking.2.2.1 .transport rfl,
   claim_C6_startup_check_not_blocking.2.2.2.1 403 (.obj []) (by decide)⟩

/-- Claim C8 (confirmed): normalization is idempotent — validating the
normalized output of a successful validation succeeds and returns that output
unchanged. -/
theorem claim_C8_normalization_idempotent {j v : Json}
    (h : validateCreateRepo j = .ok v) :
    validateCreateRepo v = .ok v :=
  validateCreateRepo_idempotent h

/-- Witness for claim C8 at a concrete creation body. -/
theorem claim_C8_witness :
    validateCreateRepo
        (.obj [("name", .str "a"), ("private", .bool false), ("auto_init", .bool true)]) =
      .ok (.obj [("name", .str "a"), ("private", .bool false), ("auto_init", .bool true)]) :=
  claim_C8_normalization_idempotent (j := .obj [("name", .str "a")]) rfl

/-- Counterexample to claim C9: a webhook body in which all three required
fields are present as strings, plus one extra unknown field, is rejected with
400 instead of the claimed 200 acknowledgement. -/
theorem claim_C9_counterexample :
    webhookRoute (.obj [("repository", .obj [("name", .str "r"), ("owner", .obj [("login", .str "o")])]), ("action", .str "opened"), ("extra", .str "x")]) =
      ⟨400, .obj [("error", .str "\"extra\" is not allowed")]⟩ ∧
    (webhookRoute (.obj [("repository", .obj [("name", .str "r"), ("owner", .obj [("login", .str "o")])]), ("action", .str "opened"), ("extra", .str "x")])).status ≠ 200 :=
  ⟨rfl, by decide⟩

/-- Claim C9 (corrected): a webhook body missing action is rejected with 400
and a non-empty error message; a body of exactly the schema shape (no unknown
fields at any level) whose three required fields are non-empty strings is
acknowledged with 200 and the fixed message, regardless of the values. -/
theorem claim_C9_webhook_behavior :
    (∀ fs : List (String × Json), lookupKey fs "action" = none →
      ∃ m, webhookRoute (.obj fs) = ⟨400, .obj [("error", .str m)]⟩ ∧ m ≠ "") ∧
    (∀ rn ol act : String, rn ≠ "" → ol ≠ "" → act ≠ "" →
      webhookRoute (.obj [("repository", .obj [("name", .str rn), ("owner", .obj [("login", .str ol)])]), ("action", .str act)]) =
        ⟨200, .obj [("message", .str "Webhook received")]⟩) := by
  constructor
  · intro fs h
    obtain ⟨e, he⟩ := validateWebhook_missing_action h
    exact ⟨e, by simp only [webhookRoute, he], validateWebhook_error_ne he⟩
  · intro rn ol act h1 h2 h3
    simp [webhookRoute, validateWebhook, validateRepository, validateOwner,
      parseRequiredString, checkUnknownKeys, lookupKey, h1, h2, h3]

/-- Witness for claim C9 (corrected) at concrete webhook bodies. -/
theorem claim_C9_witness :
    (webhookRoute (.obj [("repository", .obj [("name", .str "r"), ("owner", .obj [("login", .str "o")])])])).status = 400 ∧
    webhookRoute (.obj [("repository", .obj [("name", .str "r"), ("owner", .obj [("login", .str "o")])]), ("action", .str "opened")]) =
      ⟨200, .obj [("message", .str "Webhook received")]⟩ := by
  constructor
  · obtain ⟨m, hm, -⟩ := claim_C9_webhook_behavior.1
      [("repository", .obj [("name", .str "r"), ("owner", .obj [("login", .str "o")])])] rfl
    rw [hm]
  · exact claim_C9_webhook_behavior.2 "r" "o" "opened" (by decide) (by decide) (by decide)

/-- Claim C10 (confirmed): every creation body whose description field is the
empty string fails validation — the create route answers 400 with a non-empty
error message, and the response does not depend on the upstream function (no
upstream call is made), even when name and the other fields are valid. -/
theorem claim_C10_empty_description_rejected :
    ∀ fs : List (String × Json), lookupKey fs "description" = some (.str "") →
      ∃ m, m ≠ "" ∧ validateCreateRepo (.obj fs) = .error m ∧
        ∀ f : Json → UpstreamResult,
          createRepoRoute (.obj fs) f = ⟨400, .obj [("error", .str m)]⟩ := by
  intro fs h
  obtain ⟨e, he, hne⟩ := validateCreateRepo_empty_description h
  exact ⟨e, hne, he, fun f => by simp only [createRepoRoute, he]⟩

/-- Witness for claim C10 at a concrete body with a valid name and an empty
description. -/
theorem claim_C10_witness :
    (createRepoRoute (.obj [("name", .str "ok"), ("description", .str "")])
      (fun _ => .transport)).status = 400 := by
  obtain ⟨m, hne, hval, hroute⟩ := claim_C10_empty_description_rejected
    [("name", .str "ok"), ("description", .str "")] rfl
  rw [hroute (fun _ => .transport)]

/-- Witness for claim C1: both routes evaluated at concrete upstream 403
failures. -/
theorem claim_C1_witness :
    listReposRoute (.httpError 403 (.obj [("message", .str "rate limit exceeded")])) =
      ⟨403, .obj [("error", .str "Permission denied"),
                  ("message", .str "Token does not have required permissions")]⟩ ∧
    createRepoRoute (.obj [("name", .str "a")])
        (fun _ => .httpError 403 (.obj [("message", .str "Resource not accessible")])) =
      ⟨403, .obj [("error", .str "GitHub API error"),
                  ("message", .str "Resource not accessible")]⟩ :=
  ⟨claim_C1_403_translation.1 (.obj [("message", .str "rate limit exceeded")]),
   claim_C1_403_translation.2 (.obj [("name", .str "a")])
     (.obj [("name", .str "a"), ("private", .bool false), ("auto_init", .bool true)])
     (.obj [("message", .str "Resource not accessible")])
     (.str "Resource not accessible") rfl rfl⟩

/-- Witness for claim C4 at the upstream message name already exists, as named
by the claim. -/
theorem claim_C4_witness :
    createRepoRoute (.obj [("name", .str "a")])
        (fun _ => .httpError 422 (.obj [("message", .str "name already exists")])) =
      ⟨422, .obj [("error", .str "Validation failed"),
                  ("message", .str "name already exists")]⟩ :=
  claim_C4_422_create_translation (.obj [("name", .str "a")])
    (.obj [("name", .str "a"), ("private", .bool false), ("auto_init", .bool true)])
    (.obj [("message", .str "name already exists")]) (.str "name already exists") rfl rfl

/-- Witness for claim C5 on the create route at a concrete valid body. -/
theorem claim_C5_witness :
    createRepoRoute (.obj [("name", .str "a")]) (fun _ => .transport) =
      ⟨500, .obj [("error", .str "Internal server error"),
                  ("message", .str "Failed to create repository")]⟩ :=
  claim_C5_transport_translation.2 (.obj [("name", .str "a")])
    (.obj [("name", .str "a"), ("private", .bool false), ("auto_init", .bool true)]) rfl
